import Mathlib

/-!
Shallow embedding of the pmnc3ksvc service wrapper
(src/tools/pmnc3ksvc: popen_win32.cpp, service.cpp, popen.h).

OS handles are modelled as `Int` (with `INVALID_HANDLE_VALUE = -1`, as on
Win32 where it is `(HANDLE)-1`).  Calls into the OS are recorded in an
explicit trace of `OSAction`s, and every OS call whose outcome the code
branches on is fed in through an explicit environment record, so that the
embedded functions stay pure and total while mirroring the source
statement by statement.
-/

namespace Pmnc3k

/-- `INVALID_HANDLE_VALUE` of the Win32 API, `(HANDLE)-1`. -/
def INVALID_HANDLE_VALUE : Int := -1

/-- `STD_INPUT_HANDLE = (DWORD)-10`. -/
def STD_INPUT_HANDLE : Nat := 4294967286

/-- `STD_OUTPUT_HANDLE = (DWORD)-11`. -/
def STD_OUTPUT_HANDLE : Nat := 4294967285

/-- `STD_ERROR_HANDLE = (DWORD)-12`. -/
def STD_ERROR_HANDLE : Nat := 4294967284

/-- `ERROR_BROKEN_PIPE` Win32 error code (109). -/
def ERROR_BROKEN_PIPE : Nat := 109

/-- `ERROR_NO_DATA` Win32 error code (232). -/
def ERROR_NO_DATA : Nat := 232

/-- One call made against the OS, recorded in an execution trace. -/
inductive OSAction where
  | setStdHandle (handleType : Nat) (h : Int)
  | closeHandle (h : Int)
  | waitForSingleObject (timeoutMs : Nat)
  | terminateProcess
  | getExitCodeProcess
  | writeFile (data : List Nat)
  | flushFileBuffers
  | readFile (bufSize : Nat)
  | createProcess (commandLine : String)
  | sleep (ms : Nat)
  deriving DecidableEq, Repr

/-!
## CIOPipe (popen_win32.cpp lines 36-100)

`CIOPipe` swaps one of the process-wide standard-stream bindings for the
end of a freshly created inheritable pipe, and restores the saved binding
in its destructor.  The constructor's interaction with the OS is captured
by `PipeOSEnv`: the outcome of `CreatePipe` (`none` on failure, in which
case `m_hRead`/`m_hWrite` keep their `INVALID_HANDLE_VALUE` initialisers)
and the handle value left in the output variable of `DuplicateHandle`.
Only the binding of the pipe's own `m_dwHandleType` is ever touched, so the
standard-stream binding for that stream kind is threaded as a single `Int`.
-/

/-- Outcomes of the OS calls made by `CIOPipe::CIOPipe`. -/
structure PipeOSEnv where
  /-- `CreatePipe` result: `some (readEnd, writeEnd)` on success, `none` on
  failure (the source ignores the returned `BOOL`; on failure the members
  keep the `INVALID_HANDLE_VALUE` they were initialised with). -/
  createPipeResult : Option (Int × Int)
  /-- The handle left in the output variable of `DuplicateHandle`. -/
  dupResult : Int
  deriving DecidableEq, Repr

/-- The `CIOPipe` object (popen_win32.cpp lines 36-44).  `m_hClose` is
`Option Int` because for a mode other than `'r'`/`'w'` the source leaves
the member uninitialised; the source only ever constructs with `'r'` or
`'w'`. -/
structure CIOPipe where
  m_dwHandleType : Nat
  m_hSaved : Int
  m_hRead : Int
  m_hWrite : Int
  m_hClose : Option Int
  deriving DecidableEq, Repr

namespace CIOPipe

/-- `CIOPipe::CIOPipe` (popen_win32.cpp lines 48-92).  Takes the current
standard-stream binding of `handleType`, returns the constructed object,
the new binding for that stream kind, and the trace of OS calls made. -/
def construct (env : PipeOSEnv) (binding : Int) (handleType : Nat)
    (mode : Char) : CIOPipe × Int × List OSAction :=
  let hRead := match env.createPipeResult with
    | some (r, _) => r
    | none => INVALID_HANDLE_VALUE
  let hWrite := match env.createPipeResult with
    | some (_, w) => w
    | none => INVALID_HANDLE_VALUE
  let saved := binding
  if mode = 'r' then
    -- duplicate the read end as non-inheritable, close the original,
    -- install the write end as the standard binding
    ({ m_dwHandleType := handleType, m_hSaved := saved,
       m_hRead := env.dupResult, m_hWrite := hWrite, m_hClose := some hWrite },
     hWrite,
     [OSAction.closeHandle hRead, OSAction.setStdHandle handleType hWrite])
  else if mode = 'w' then
    -- duplicate the write end as non-inheritable, close the original,
    -- install the read end as the standard binding
    ({ m_dwHandleType := handleType, m_hSaved := saved,
       m_hRead := hRead, m_hWrite := env.dupResult, m_hClose := some hRead },
     hRead,
     [OSAction.closeHandle hWrite, OSAction.setStdHandle handleType hRead])
  else
    ({ m_dwHandleType := handleType, m_hSaved := saved,
       m_hRead := hRead, m_hWrite := hWrite, m_hClose := none },
     binding, [])

/-- `CIOPipe::~CIOPipe` (popen_win32.cpp lines 96-100): restores the saved
binding and closes the end that had been substituted in.  Returns the new
binding for the stream kind and the trace.  (The `none` case of `m_hClose`
corresponds to closing an uninitialised member, unreachable from the
source's call sites.) -/
def destruct (p : CIOPipe) : Int × List OSAction :=
  match p.m_hClose with
  | some h =>
      (p.m_hSaved, [OSAction.setStdHandle p.m_dwHandleType p.m_hSaved,
                    OSAction.closeHandle h])
  | none =>
      (p.m_hSaved, [OSAction.setStdHandle p.m_dwHandleType p.m_hSaved])

end CIOPipe

/-!
## CSatelliteProcess (popen.h lines 39-56, popen_win32.cpp lines 104-271)
-/

/-- The pimpl object `CSatelliteProcess::CSatelliteProcessImpl`
(popen_win32.cpp lines 104-120): the three parent-side pipe handles and
the child process handle. -/
structure CSatelliteProcessImpl where
  m_hStdIn : Int
  m_hStdOut : Int
  m_hStdErr : Int
  m_hProcess : Int
  deriving DecidableEq, Repr

/-- `CSatelliteProcess` (popen.h lines 39-56).  `m_ulRetCode` is
uninitialised in the source until the first completed wait; it is modelled
as starting at 0 and is never read before `m_boolCompleted` is set. -/
structure CSatelliteProcess where
  m_strCommandLine : String
  m_shpoImpl : CSatelliteProcessImpl
  m_boolCompleted : Bool
  m_ulRetCode : Nat
  m_ulDestructorWaitMs : Nat
  deriving DecidableEq, Repr

namespace CSatelliteProcess

/-- Outcomes of the OS calls made by `CSatelliteProcess::WaitForCompletion`. -/
structure WaitOSEnv where
  /-- `WaitForSingleObject(...) == WAIT_OBJECT_0`, i.e. the child exited
  within the timeout. -/
  waitSignaled : Bool
  /-- `GetExitCodeProcess` outcome: `some code` on success; `none` on
  failure, in which case the local `dwExitCode` keeps its initialiser 0. -/
  exitCodeQuery : Option Nat
  deriving DecidableEq, Repr

/-- `CSatelliteProcess::WaitForCompletion` (popen_win32.cpp lines 222-240).
Returns the exit code handed back to the caller, the updated object, and
the trace of OS calls. -/
def WaitForCompletion (p : CSatelliteProcess) (env : WaitOSEnv)
    (waitMs : Nat) : Nat × CSatelliteProcess × List OSAction :=
  if p.m_boolCompleted then
    (p.m_ulRetCode, p, [])
  else
    let termActs : List OSAction :=
      if env.waitSignaled then [] else [OSAction.terminateProcess]
    let dwExitCode := env.exitCodeQuery.getD 0
    (dwExitCode,
     { p with m_ulRetCode := dwExitCode, m_boolCompleted := true },
     OSAction.waitForSingleObject waitMs :: termActs ++
       [OSAction.getExitCodeProcess])

/-- A sequence of further `WaitForCompletion` calls, each with its own OS
environment and timeout; collects every call's returned exit code and
trace. -/
def waitCalls : CSatelliteProcess → List (WaitOSEnv × Nat) →
    CSatelliteProcess × List (Nat × List OSAction)
  | p, [] => (p, [])
  | p, (env, t) :: rest =>
      let out := p.WaitForCompletion env t
      let tail := waitCalls out.2.1 rest
      (tail.1, (out.1, out.2.2) :: tail.2)

/-- Outcomes of the OS calls made by `CSatelliteProcess::CSatelliteProcess`. -/
structure CtorOSEnv where
  stdinPipeEnv : PipeOSEnv
  stdoutPipeEnv : PipeOSEnv
  stderrPipeEnv : PipeOSEnv
  /-- `CreateProcess` outcome: `some processHandle` on success (the thread
  handle is closed at once), `none` on failure. -/
  createProcessResult : Option Int
  deriving DecidableEq, Repr

/-- `CSatelliteProcess::CSatelliteProcess` (popen_win32.cpp lines 178-218).
Takes the current standard-stream bindings for stdin/stdout/stderr;
returns the constructed object, the final three bindings (after the three
`CIOPipe` locals go out of scope in reverse order), and the trace. -/
def construct (commandLine : String) (destructorWaitMs : Nat)
    (env : CtorOSEnv) (bindIn bindOut bindErr : Int) :
    CSatelliteProcess × (Int × Int × Int) × List OSAction :=
  let oIn := CIOPipe.construct env.stdinPipeEnv bindIn STD_INPUT_HANDLE 'w'
  let oOut := CIOPipe.construct env.stdoutPipeEnv bindOut STD_OUTPUT_HANDLE 'r'
  let oErr := CIOPipe.construct env.stderrPipeEnv bindErr STD_ERROR_HANDLE 'r'
  let hProcessHandle := match env.createProcessResult with
    | some h => h
    | none => INVALID_HANDLE_VALUE
  let impl : CSatelliteProcessImpl :=
    { m_hStdIn := oIn.1.m_hWrite, m_hStdOut := oOut.1.m_hRead,
      m_hStdErr := oErr.1.m_hRead, m_hProcess := hProcessHandle }
  -- scope exit: the three CIOPipe locals are destroyed in reverse order
  let dErr := CIOPipe.destruct oErr.1
  let dOut := CIOPipe.destruct oOut.1
  let dIn := CIOPipe.destruct oIn.1
  ({ m_strCommandLine := commandLine, m_shpoImpl := impl,
     m_boolCompleted := false, m_ulRetCode := 0,
     m_ulDestructorWaitMs := destructorWaitMs },
   (dIn.1, dOut.1, dErr.1),
   oIn.2.2 ++ oOut.2.2 ++ oErr.2.2 ++
     [OSAction.createProcess commandLine] ++ dErr.2 ++ dOut.2 ++ dIn.2)

/-- `CSatelliteProcess::~CSatelliteProcess` (popen_win32.cpp lines 244-250)
followed by the pimpl teardown (popen_win32.cpp line 119) that closes the
three pipe handles and the process handle.  Returns the object's final
field values and the trace. -/
def destruct (p : CSatelliteProcess) (env : WaitOSEnv) :
    CSatelliteProcess × List OSAction :=
  let closes : List OSAction :=
    [OSAction.closeHandle p.m_shpoImpl.m_hStdIn,
     OSAction.closeHandle p.m_shpoImpl.m_hStdOut,
     OSAction.closeHandle p.m_shpoImpl.m_hStdErr,
     OSAction.closeHandle p.m_shpoImpl.m_hProcess]
  if p.m_boolCompleted then
    (p, closes)
  else
    let out := p.WaitForCompletion env p.m_ulDestructorWaitMs
    (out.2.1, out.2.2 ++ closes)

end CSatelliteProcess

/-!
## Write / Read (popen_win32.cpp lines 124-174)

The buffer-size constants `PIPE_OUTPUT_BUFFER_SIZE` and
`PIPE_INPUT_BUFFER_SIZE` are referenced by popen_win32.cpp but defined in
a header that is not part of the repository snapshot, so the two
functions are parameterised over them (the spec fixes the write limit at
4096 in its example scenarios). -/

namespace CSatelliteProcessImpl

/-- `CSatelliteProcessImpl::Write` (popen_win32.cpp lines 124-138),
parameterised over `PIPE_OUTPUT_BUFFER_SIZE` (defined outside the
snapshot).  The payload is the byte list `data`; the function clamps the
length to the buffer size, hands exactly that prefix to `WriteFile`
(whose bytes-written output is ignored), then calls `FlushFileBuffers`.
Returns the bytes handed to the OS and the trace; there is no error
result of any kind. -/
def Write (PIPE_OUTPUT_BUFFER_SIZE : Nat) (data : List Nat) :
    List Nat × List OSAction :=
  let ulDataLength :=
    if data.length > PIPE_OUTPUT_BUFFER_SIZE then PIPE_OUTPUT_BUFFER_SIZE
    else data.length
  let sent := data.take ulDataLength
  (sent, [OSAction.writeFile sent, OSAction.flushFileBuffers])

/-- Outcome of the `ReadFile` call inside `ReadInternal`: whether it
returned TRUE, the value it left in the bytes-read output variable, and
the `GetLastError` value observed after a failure. -/
structure ReadFileOutcome where
  ok : Bool
  bytesRead : Nat
  lastError : Nat
  deriving DecidableEq, Repr

/-- `CSatelliteProcessImpl::ReadInternal` (popen_win32.cpp lines 156-174),
parameterised over `PIPE_INPUT_BUFFER_SIZE` (defined outside the
snapshot).  If `ReadFile` failed and the error is neither
`ERROR_BROKEN_PIPE` nor `ERROR_NO_DATA`, the byte count is forced to 0;
otherwise the count reported by `ReadFile` is passed through.  Returns
the data length reported to the caller and the trace; no failure is ever
signalled. -/
def ReadInternal (PIPE_INPUT_BUFFER_SIZE : Nat)
    (outcome : ReadFileOutcome) : Nat × List OSAction :=
  let dwRd :=
    if !outcome.ok ∧ outcome.lastError ≠ ERROR_BROKEN_PIPE ∧
        outcome.lastError ≠ ERROR_NO_DATA then 0
    else outcome.bytesRead
  (dwRd, [OSAction.readFile PIPE_INPUT_BUFFER_SIZE])

end CSatelliteProcessImpl

/-!
## Service controller (service.cpp lines 93-256)

The controller's globals are `hServiceStatus`, the raw pointer
`poApp` (initialised to 0, line 94) and the status reports made through
`ServiceSignalStatus`.  The pointer is modelled as `PtrVal`: `null`
(value 0), `valid p` (points at a live `CSatelliteProcess`), or
`dangling` (points at an already-deleted object — `ServiceStop` never
resets `poApp` after `delete`).  `delete` on `null` is a no-op; `delete`
on `dangling` is a double delete, recorded in the `doubleDelete` flag.
-/

/-- The four externally meaningful service states of the Win32 service
status protocol.  The embedding carries all four so that which of them
the code ever reports is a meaningful question. -/
inductive ServiceState where
  | startPending
  | running
  | stopPending
  | stopped
  deriving DecidableEq, Repr

/-- The control codes dispatched by `ServiceHandlerEx` (service.cpp lines
114-126): stop, shutdown, or any other code (the `default` branch). -/
inductive ControlCode where
  | stop
  | shutdown
  | other
  deriving DecidableEq, Repr

/-- The value of the global raw pointer `poApp`. -/
inductive PtrVal where
  | null
  | valid (p : CSatelliteProcess)
  | dangling
  deriving DecidableEq, Repr

/-- The controller's global mutable state (service.cpp lines 93-95)
together with the observable record of the run: every status reported via
`ServiceSignalStatus`, the OS-call trace, and whether an already-deleted
object was deleted again. -/
structure SvcGlobals where
  poApp : PtrVal
  reports : List ServiceState
  actions : List OSAction
  doubleDelete : Bool
  deriving DecidableEq, Repr

/-- The globals at process start: `poApp = 0`, nothing reported. -/
def initGlobals : SvcGlobals :=
  { poApp := PtrVal.null, reports := [], actions := [], doubleDelete := false }

/-- `ServiceSignalStatus` (service.cpp lines 99-110), reduced to its
observable effect: one status report to the service manager. -/
def ServiceSignalStatus (g : SvcGlobals) (s : ServiceState) : SvcGlobals :=
  { g with reports := g.reports ++ [s] }

/-- `ServiceStop` (service.cpp lines 252-256): `delete poApp;` followed by
`Sleep(7000);`.  Deleting a live object runs `~CSatelliteProcess` (which
needs a `WaitOSEnv`) and leaves `poApp` dangling, since the source never
resets the pointer. -/
def ServiceStop (g : SvcGlobals) (env : CSatelliteProcess.WaitOSEnv) :
    SvcGlobals :=
  match g.poApp with
  | PtrVal.null =>
      { g with actions := g.actions ++ [OSAction.sleep 7000] }
  | PtrVal.valid p =>
      let d := p.destruct env
      { g with poApp := PtrVal.dangling,
               actions := g.actions ++ d.2 ++ [OSAction.sleep 7000] }
  | PtrVal.dangling =>
      { g with doubleDelete := true,
               actions := g.actions ++ [OSAction.sleep 7000] }

/-- `ServiceHandlerEx` (service.cpp lines 114-126): on stop or shutdown,
run `ServiceStop` then report `SERVICE_STOPPED`; any other control code is
answered with `ERROR_CALL_NOT_IMPLEMENTED` and has no effect. -/
def ServiceHandlerEx (g : SvcGlobals) (c : ControlCode)
    (env : CSatelliteProcess.WaitOSEnv) : SvcGlobals :=
  match c with
  | ControlCode.stop => ServiceSignalStatus (ServiceStop g env) ServiceState.stopped
  | ControlCode.shutdown => ServiceSignalStatus (ServiceStop g env) ServiceState.stopped
  | ControlCode.other => g

/-- `ServiceStart` (service.cpp lines 237-242): `Sleep(7000); poApp = new
CSatelliteProcess(strCommandLine, 0); return poApp != 0;`.  The outcome of
the allocation is supplied as `alloc` (`none` models `new` yielding no
object, the case the source's `poApp != 0` check anticipates). -/
def ServiceStart (g : SvcGlobals) (alloc : Option CSatelliteProcess) :
    SvcGlobals × Bool :=
  let g1 := { g with actions := g.actions ++ [OSAction.sleep 7000] }
  match alloc with
  | some p => ({ g1 with poApp := PtrVal.valid p }, true)
  | none => ({ g1 with poApp := PtrVal.null }, false)

/-- `ServiceEntry` (service.cpp lines 130-149): after registering the
control handler (outcome `registrationOk`), runs `ServiceStart`; on
success reports `SERVICE_RUNNING` and enters `ServiceRun` (which is empty,
lines 246-248); on failure reports `SERVICE_STOPPED`.  If registration
failed nothing happens. -/
def ServiceEntry (g : SvcGlobals) (registrationOk : Bool)
    (alloc : Option CSatelliteProcess) : SvcGlobals :=
  if registrationOk then
    let out := ServiceStart g alloc
    if out.2 then ServiceSignalStatus out.1 ServiceState.running
    else ServiceSignalStatus out.1 ServiceState.stopped
  else g

/-- One externally driven step of the service process: either the service
manager invokes `ServiceEntry` on the service main thread, or it delivers
a control code to `ServiceHandlerEx` on the handler thread. -/
inductive SvcEvent where
  | entry (registrationOk : Bool) (alloc : Option CSatelliteProcess)
  | control (c : ControlCode) (env : CSatelliteProcess.WaitOSEnv)
  deriving DecidableEq, Repr

/-- Runs a sequence of externally driven events against the globals. -/
def runService : SvcGlobals → List SvcEvent → SvcGlobals
  | g, [] => g
  | g, SvcEvent.entry reg alloc :: rest => runService (ServiceEntry g reg alloc) rest
  | g, SvcEvent.control c env :: rest => runService (ServiceHandlerEx g c env) rest

/-!
## Theorems
-/

/-- After any `WaitForCompletion` call the completion flag is set. -/
theorem wfc_completed (p : CSatelliteProcess) (env : CSatelliteProcess.WaitOSEnv)
    (t : Nat) : (p.WaitForCompletion env t).2.1.m_boolCompleted = true := by
  unfold CSatelliteProcess.WaitForCompletion
  by_cases h : p.m_boolCompleted = true <;> simp [h]

/-- After any `WaitForCompletion` call the cached code equals the returned
code. -/
theorem wfc_retCode_eq (p : CSatelliteProcess) (env : CSatelliteProcess.WaitOSEnv)
    (t : Nat) :
    (p.WaitForCompletion env t).2.1.m_ulRetCode = (p.WaitForCompletion env t).1 := by
  unfold CSatelliteProcess.WaitForCompletion
  by_cases h : p.m_boolCompleted = true <;> simp [h]

/-- On an already-completed instance, `WaitForCompletion` returns the
cached code, leaves the object untouched and makes no OS call. -/
theorem wfc_of_completed (p : CSatelliteProcess) (env : CSatelliteProcess.WaitOSEnv)
    (t : Nat) (h : p.m_boolCompleted = true) :
    p.WaitForCompletion env t = (p.m_ulRetCode, p, []) := by
  unfold CSatelliteProcess.WaitForCompletion
  simp [h]

/-- Claim C3: `WaitForCompletion` is idempotent — after a first call has
completed, every subsequent call (each element of `rest`, i.e. the Nth
call for every N > 1) returns the same exit code the first call cached,
with an empty OS trace (no blocking wait, no termination), and the
object's fields — cached result and completion flag included — never
change again after the first call set them. -/
theorem c3_WaitForCompletion_idempotent (p : CSatelliteProcess)
    (env : CSatelliteProcess.WaitOSEnv) (waitMs : Nat)
    (rest : List (CSatelliteProcess.WaitOSEnv × Nat)) :
    CSatelliteProcess.waitCalls (p.WaitForCompletion env waitMs).2.1 rest =
      ((p.WaitForCompletion env waitMs).2.1,
       rest.map fun _ => ((p.WaitForCompletion env waitMs).1, ([] : List OSAction))) := by
  generalize hq : (p.WaitForCompletion env waitMs) = q
  have hc : q.2.1.m_boolCompleted = true := by rw [← hq]; exact wfc_completed p env waitMs
  have hr : q.2.1.m_ulRetCode = q.1 := by rw [← hq]; exact wfc_retCode_eq p env waitMs
  clear hq
  induction rest with
  | nil => simp [CSatelliteProcess.waitCalls]
  | cons head tail ih =>
      obtain ⟨e, t⟩ := head
      simp only [CSatelliteProcess.waitCalls, wfc_of_completed q.2.1 e t hc, ih,
        List.map_cons, hr]

/-- Claim C6: on a first (non-cached) call, `WaitForCompletion` makes the
bounded OS wait; exactly when the wait does not report the child as
exited it terminates the child and queries the exit code immediately
afterwards; in either case the queried exit code is cached, the
completion flag is set, and that code is returned. -/
theorem c6_WaitForCompletion_first_call (p : CSatelliteProcess)
    (env : CSatelliteProcess.WaitOSEnv) (waitMs : Nat)
    (h : p.m_boolCompleted = false) :
    (p.WaitForCompletion env waitMs).2.1.m_boolCompleted = true ∧
    (p.WaitForCompletion env waitMs).2.1.m_ulRetCode = env.exitCodeQuery.getD 0 ∧
    (p.WaitForCompletion env waitMs).1 = env.exitCodeQuery.getD 0 ∧
    (env.waitSignaled = false →
      (p.WaitForCompletion env waitMs).2.2 =
        [OSAction.waitForSingleObject waitMs, OSAction.terminateProcess,
         OSAction.getExitCodeProcess]) ∧
    (env.waitSignaled = true →
      (p.WaitForCompletion env waitMs).2.2 =
        [OSAction.waitForSingleObject waitMs, OSAction.getExitCodeProcess]) := by
  unfold CSatelliteProcess.WaitForCompletion
  refine ⟨by simp [h], by simp [h], by simp [h], ?_, ?_⟩ <;>
    intro hw <;> simp [h, hw]

/-- Claim C6 witness: a concrete not-yet-completed instance whose wait
times out is terminated, its exit code queried and cached. -/
theorem c6_WaitForCompletion_first_call_witness :
    (⟨"cmd", ⟨1, 2, 3, 4⟩, false, 0, 0⟩ :
        CSatelliteProcess).m_boolCompleted = false ∧
    ((⟨"cmd", ⟨1, 2, 3, 4⟩, false, 0, 0⟩ :
        CSatelliteProcess).WaitForCompletion ⟨false, some 5⟩ 1000).2.1.m_boolCompleted
        = true := by
  refine ⟨rfl, ?_⟩
  exact (c6_WaitForCompletion_first_call ⟨"cmd", ⟨1, 2, 3, 4⟩, false, 0, 0⟩
    ⟨false, some 5⟩ 1000 rfl).1

/-- Claim C9: the destructor invokes `WaitForCompletion` with the
configured destructor-wait budget exactly when the completion flag is not
yet set (its OS trace is then the `WaitForCompletion` trace followed by
the handle closes); if the instance was already completed it performs no
wait at all, only the handle closes; after destruction the completion
flag is true. -/
theorem c9_destructor_waits_iff_not_completed (p : CSatelliteProcess)
    (env : CSatelliteProcess.WaitOSEnv) :
    (p.destruct env).1.m_boolCompleted = true ∧
    (p.m_boolCompleted = false →
      (p.destruct env).2 =
        (p.WaitForCompletion env p.m_ulDestructorWaitMs).2.2 ++
          [OSAction.closeHandle p.m_shpoImpl.m_hStdIn,
           OSAction.closeHandle p.m_shpoImpl.m_hStdOut,
           OSAction.closeHandle p.m_shpoImpl.m_hStdErr,
           OSAction.closeHandle p.m_shpoImpl.m_hProcess]) ∧
    (p.m_boolCompleted = true →
      (p.destruct env).2 =
        [OSAction.closeHandle p.m_shpoImpl.m_hStdIn,
         OSAction.closeHandle p.m_shpoImpl.m_hStdOut,
         OSAction.closeHandle p.m_shpoImpl.m_hStdErr,
         OSAction.closeHandle p.m_shpoImpl.m_hProcess] ∧
      ∀ t, OSAction.waitForSingleObject t ∉ (p.destruct env).2) := by
  unfold CSatelliteProcess.destruct
  by_cases h : p.m_boolCompleted = true
  · simp [h]
  · simp only [Bool.not_eq_true] at h
    refine ⟨?_, fun _ => by simp [h], fun ht => by rw [ht] at h; cases h⟩
    simp [h, wfc_completed]

/-- Claim C9 witness: an already-completed concrete instance is destroyed
without any wait. -/
theorem c9_destructor_waits_iff_not_completed_witness :
    ((⟨"cmd", ⟨1, 2, 3, 4⟩, true, 7, 9⟩ :
        CSatelliteProcess).destruct ⟨true, some 0⟩).2 =
      [OSAction.closeHandle 1, OSAction.closeHandle 2,
       OSAction.closeHandle 3, OSAction.closeHandle 4] :=
  ((c9_destructor_waits_iff_not_completed ⟨"cmd", ⟨1, 2, 3, 4⟩, true, 7, 9⟩
    ⟨true, some 0⟩).2.2 rfl).1

/-- Claim C7: if `CreateProcess` fails, `CSatelliteProcess` construction
still returns a fully constructed instance (it raises nothing): the
process handle is the `INVALID_HANDLE_VALUE` sentinel, and the three
parent-side pipe handles (stdin-write, stdout-read, stderr-read ends
surviving from the three `CIOPipe`s) are retained in the pimpl. -/
theorem c7_construct_spawn_failure (commandLine : String)
    (destructorWaitMs : Nat) (env : CSatelliteProcess.CtorOSEnv)
    (bindIn bindOut bindErr : Int)
    (h : env.createProcessResult = none) :
    (CSatelliteProcess.construct commandLine destructorWaitMs env bindIn
        bindOut bindErr).1 =
      { m_strCommandLine := commandLine,
        m_shpoImpl :=
          { m_hStdIn := (CIOPipe.construct env.stdinPipeEnv bindIn
              STD_INPUT_HANDLE 'w').1.m_hWrite,
            m_hStdOut := (CIOPipe.construct env.stdoutPipeEnv bindOut
              STD_OUTPUT_HANDLE 'r').1.m_hRead,
            m_hStdErr := (CIOPipe.construct env.stderrPipeEnv bindErr
              STD_ERROR_HANDLE 'r').1.m_hRead,
            m_hProcess := INVALID_HANDLE_VALUE },
        m_boolCompleted := false, m_ulRetCode := 0,
        m_ulDestructorWaitMs := destructorWaitMs } := by
  unfold CSatelliteProcess.construct
  simp [h]

/-- Claim C7 witness: a concrete construction with a failed spawn yields
the sentinel process handle and the three pipe handles. -/
theorem c7_construct_spawn_failure_witness :
    (CSatelliteProcess.construct "cmd" 0
        ⟨⟨some (10, 11), 12⟩, ⟨some (20, 21), 22⟩, ⟨some (30, 31), 32⟩, none⟩
        100 101 102).1.m_shpoImpl =
      { m_hStdIn := 12, m_hStdOut := 22, m_hStdErr := 32,
        m_hProcess := INVALID_HANDLE_VALUE } := by
  rw [c7_construct_spawn_failure "cmd" 0
      ⟨⟨some (10, 11), 12⟩, ⟨some (20, 21), 22⟩, ⟨some (30, 31), 32⟩, none⟩
      100 101 102 rfl]
  rfl

/-- Claim C2: for a `CIOPipe` built with either of the two modes the
source uses, destruction restores the standard-stream binding of its
stream kind to exactly the value saved before construction — whether or
not `CreatePipe` succeeded — through exactly one `SetStdHandle` call, and
closes the end that construction had substituted in as the standard
handle (the binding value construction installed). -/
theorem c2_pipe_restores_binding (env : PipeOSEnv) (binding : Int)
    (handleType : Nat) (mode : Char) (h : mode = 'r' ∨ mode = 'w') :
    (CIOPipe.destruct (CIOPipe.construct env binding handleType mode).1).1
        = binding ∧
    (CIOPipe.destruct (CIOPipe.construct env binding handleType mode).1).2 =
      [OSAction.setStdHandle handleType binding,
       OSAction.closeHandle (CIOPipe.construct env binding handleType mode).2.1] ∧
    (CIOPipe.construct env binding handleType mode).1.m_hClose =
      some (CIOPipe.construct env binding handleType mode).2.1 := by
  rcases h with h | h <;> subst h <;>
    simp [CIOPipe.construct, CIOPipe.destruct]

/-- Claim C2 witness: a concrete stdin-style (`'w'`) pipe whose creation
succeeded restores the saved binding 5 and closes the substituted read
end. -/
theorem c2_pipe_restores_binding_witness :
    (('w' : Char) = 'r' ∨ ('w' : Char) = 'w') ∧
    (CIOPipe.destruct (CIOPipe.construct ⟨some (10, 11), 12⟩ 5
        STD_INPUT_HANDLE 'w').1).1 = 5 :=
  ⟨Or.inr rfl,
   (c2_pipe_restores_binding ⟨some (10, 11), 12⟩ 5 STD_INPUT_HANDLE 'w'
     (Or.inr rfl)).1⟩

/-- Claim C4: `Write` hands to the OS exactly the first
`PIPE_OUTPUT_BUFFER_SIZE` bytes of a longer payload (the remainder is
dropped with no error result — the function has no error channel and the
bytes-written output of `WriteFile` is ignored), passes a payload of at
most the limit through whole, and in every case follows the write with a
synchronous `FlushFileBuffers` before returning. -/
theorem c4_Write_truncates (PIPE_OUTPUT_BUFFER_SIZE : Nat) (data : List Nat) :
    (data.length > PIPE_OUTPUT_BUFFER_SIZE →
      (CSatelliteProcessImpl.Write PIPE_OUTPUT_BUFFER_SIZE data).1 =
          data.take PIPE_OUTPUT_BUFFER_SIZE ∧
      (CSatelliteProcessImpl.Write PIPE_OUTPUT_BUFFER_SIZE data).1.length =
          PIPE_OUTPUT_BUFFER_SIZE) ∧
    (data.length ≤ PIPE_OUTPUT_BUFFER_SIZE →
      (CSatelliteProcessImpl.Write PIPE_OUTPUT_BUFFER_SIZE data).1 = data) ∧
    (CSatelliteProcessImpl.Write PIPE_OUTPUT_BUFFER_SIZE data).2 =
      [OSAction.writeFile
        (CSatelliteProcessImpl.Write PIPE_OUTPUT_BUFFER_SIZE data).1,
       OSAction.flushFileBuffers] := by
  unfold CSatelliteProcessImpl.Write
  refine ⟨fun hgt => ?_, fun hle => ?_, rfl⟩
  · simp [hgt, List.length_take, Nat.min_eq_left (Nat.le_of_lt hgt)]
  · simp [Nat.not_lt.mpr hle]

/-- Claim C4 witness: with limit 2, the 3-byte payload `[1, 2, 3]` is cut
to `[1, 2]` and the trace is write-then-flush. -/
theorem c4_Write_truncates_witness :
    (3 > 2 → (CSatelliteProcessImpl.Write 2 [1, 2, 3]).1 = [1, 2]) ∧
    (CSatelliteProcessImpl.Write 2 [1, 2, 3]).2 =
      [OSAction.writeFile [1, 2], OSAction.flushFileBuffers] := by
  have h := c4_Write_truncates 2 [1, 2, 3]
  exact ⟨fun _ => (h.1 (by decide)).1,
    by rw [h.2.2, (h.1 (by decide)).1]; rfl⟩

/-- Claim C5: `ReadInternal` (the body of `Read` and `ReadErr`) never
signals a failure: under the Win32 contract that a failed `ReadFile`
leaves the bytes-read variable at 0 and a successful one reads at most
the requested buffer size, every failed read — broken-pipe, no-data, or
anything else — is reported as a successful read of zero bytes, and the
reported length never exceeds `PIPE_INPUT_BUFFER_SIZE`. -/
theorem c5_ReadInternal_degrades_failure (PIPE_INPUT_BUFFER_SIZE : Nat)
    (outcome : CSatelliteProcessImpl.ReadFileOutcome)
    (hFail : outcome.ok = false → outcome.bytesRead = 0)
    (hOk : outcome.ok = true → outcome.bytesRead ≤ PIPE_INPUT_BUFFER_SIZE) :
    (outcome.ok = false →
      (CSatelliteProcessImpl.ReadInternal PIPE_INPUT_BUFFER_SIZE outcome).1 = 0) ∧
    (CSatelliteProcessImpl.ReadInternal PIPE_INPUT_BUFFER_SIZE outcome).1 ≤
      PIPE_INPUT_BUFFER_SIZE := by
  unfold CSatelliteProcessImpl.ReadInternal
  by_cases h : outcome.ok = true
  · simp [h, hOk h]
  · simp only [Bool.not_eq_true] at h
    simp only [h, Bool.not_false, Bool.true_and, true_implies]
    constructor
    · split <;> simp [hFail h]
    · split <;> simp [hFail h]

/-- Claim C5 witness: a read that failed with `ERROR_BROKEN_PIPE` is
reported as 0 bytes within a 16-byte buffer. -/
theorem c5_ReadInternal_degrades_failure_witness :
    (CSatelliteProcessImpl.ReadInternal 16
        ⟨false, 0, ERROR_BROKEN_PIPE⟩).1 = 0 :=
  (c5_ReadInternal_degrades_failure 16 ⟨false, 0, ERROR_BROKEN_PIPE⟩
    (fun _ => rfl) (fun h => by cases h)).1 rfl

/-- Claim C8: when the control handler registered, the start transition
reports `Running` exactly when the `new CSatelliteProcess` allocation
produced a non-null instance; otherwise it reports `Stopped` directly,
never having reported `Running`. -/
theorem c8_start_reports_running_iff_nonnull (g : SvcGlobals)
    (alloc : Option CSatelliteProcess) :
    ((ServiceEntry g true alloc).reports =
        g.reports ++ [ServiceState.running] ↔ alloc.isSome = true) ∧
    (alloc.isSome = false →
      (ServiceEntry g true alloc).reports =
        g.reports ++ [ServiceState.stopped]) := by
  cases alloc <;>
    simp [ServiceEntry, ServiceStart, ServiceSignalStatus]

/-- Claim C8 witness: with a non-null allocation the controller reports
`Running`, appended to the empty initial report list. -/
theorem c8_start_reports_running_iff_nonnull_witness :
    (ServiceEntry initGlobals true
        (some ⟨"cmd", ⟨1, 2, 3, 4⟩, false, 0, 0⟩)).reports =
      [ServiceState.running] :=
  (c8_start_reports_running_iff_nonnull initGlobals
    (some ⟨"cmd", ⟨1, 2, 3, 4⟩, false, 0, 0⟩)).1.mpr rfl

/-- A status the code is able to report: `Running` or `Stopped`. -/
def reportableStatus (s : ServiceState) : Bool :=
  s == ServiceState.running || s == ServiceState.stopped

/-- `ServiceStop` reports nothing itself. -/
theorem ServiceStop_reports (g : SvcGlobals) (env : CSatelliteProcess.WaitOSEnv) :
    (ServiceStop g env).reports = g.reports := by
  unfold ServiceStop
  cases g.poApp <;> rfl

/-- Each externally driven step appends only `Running`/`Stopped` reports. -/
theorem runService_reportable (g : SvcGlobals) (events : List SvcEvent)
    (hg : g.reports.all reportableStatus = true) :
    ((runService g events).reports).all reportableStatus = true := by
  induction events generalizing g with
  | nil => exact hg
  | cons ev rest ih =>
      cases ev with
      | entry reg alloc =>
          refine ih (ServiceEntry g reg alloc) ?_
          unfold ServiceEntry ServiceStart ServiceSignalStatus
          cases reg <;> cases alloc <;> simp_all [reportableStatus]
      | control c env =>
          refine ih (ServiceHandlerEx g c env) ?_
          unfold ServiceHandlerEx ServiceSignalStatus
          cases c <;>
            simp_all [ServiceStop_reports, reportableStatus]

/-- Claim C10: over every externally driven event sequence, each status
the service entry and control-handler code ever reports to the service
manager is `Running` or `Stopped`; the `StartPending` and `StopPending`
states are never signalled. -/
theorem c10_only_running_and_stopped_reported (events : List SvcEvent) :
    ((runService initGlobals events).reports).all reportableStatus = true :=
  runService_reportable initGlobals events rfl

/-- Claim C10 witness: a concrete run — registration, successful start,
then a stop — reports only `Running` and `Stopped`. -/
theorem c10_only_running_and_stopped_reported_witness :
    ((runService initGlobals
        [SvcEvent.entry true (some ⟨"cmd", ⟨1, 2, 3, 4⟩, false, 0, 0⟩),
         SvcEvent.control ControlCode.stop ⟨true, some 0⟩]).reports).all
      reportableStatus = true :=
  c10_only_running_and_stopped_reported
    [SvcEvent.entry true (some ⟨"cmd", ⟨1, 2, 3, 4⟩, false, 0, 0⟩),
     SvcEvent.control ControlCode.stop ⟨true, some 0⟩]

/-- Claim C1 evaluated at its failing input (a successful start followed
by two back-to-back stop signals): because `ServiceStop` never resets
`poApp` after `delete` and the handler reports `SERVICE_STOPPED`
unconditionally, the second stop deletes the already-deleted
`CSatelliteProcess` (a double delete, not a safe no-op) and `Stopped` is
reported twice, not exactly once. -/
theorem c1_double_stop_is_double_delete :
    (runService initGlobals
        [SvcEvent.entry true (some ⟨"cmd", ⟨1, 2, 3, 4⟩, false, 0, 0⟩),
         SvcEvent.control ControlCode.stop ⟨true, some 0⟩,
         SvcEvent.control ControlCode.stop ⟨true, some 0⟩]).doubleDelete
        = true ∧
    (runService initGlobals
        [SvcEvent.entry true (some ⟨"cmd", ⟨1, 2, 3, 4⟩, false, 0, 0⟩),
         SvcEvent.control ControlCode.stop ⟨true, some 0⟩,
         SvcEvent.control ControlCode.stop ⟨true, some 0⟩]).reports =
      [ServiceState.running, ServiceState.stopped, ServiceState.stopped] :=
  ⟨rfl, rfl⟩

end Pmnc3k
